import Mathlib

/-!
Verification development for the Yarrow widget core: the overlay containment
layout, the drop-down-menu row measurement and hit-testing, the shared
configuration cell drain protocol, and the toggle-button interaction state
machine. Scalar coordinates (`f32` in the source) are modelled as exact
rationals; the quantities involved (paddings, row heights, window sizes) are
small and the algorithms use only comparison, addition, subtraction and `ceil`.
-/

/-- `rootvg::math::Point`: a 2-d point. -/
structure Point where
  x : ℚ
  y : ℚ
deriving DecidableEq

/-- `rootvg::math::Size`: a 2-d size. -/
structure Size where
  width : ℚ
  height : ℚ
deriving DecidableEq

/-- `Size::zero()` / `Size::default()`. -/
def Size.zero : Size := ⟨0, 0⟩

/-- `rootvg::math::Rect`: origin plus size. -/
structure Rect where
  origin : Point
  size : Size
deriving DecidableEq

def Rect.min_x (r : Rect) : ℚ := r.origin.x

def Rect.min_y (r : Rect) : ℚ := r.origin.y

def Rect.width (r : Rect) : ℚ := r.size.width

def Rect.height (r : Rect) : ℚ := r.size.height

/-- `Rect::from_size`: a rectangle at the origin. -/
def Rect.from_size (s : Size) : Rect := ⟨⟨0, 0⟩, s⟩

/-- `Rect::contains` (euclid): half-open containment test. -/
def Rect.contains (r : Rect) (p : Point) : Prop :=
  r.min_x ≤ p.x ∧ p.x < r.min_x + r.width ∧ r.min_y ≤ p.y ∧ p.y < r.min_y + r.height

instance (r : Rect) (p : Point) : Decidable (r.contains p) := by
  unfold Rect.contains; infer_instance

/-- Result record of `layout` in `drop_down_menu.rs`. -/
structure LayoutInfo where
  new_bounds : Option Rect
  width_clipped : Bool
  height_clipped : Bool
deriving DecidableEq

/-- `layout` from `drop_down_menu.rs` lines 679-719: clamp the desired
rectangle's size to the window and reposition it so it stays inside; return
`none` for `new_bounds` when nothing was clamped or repositioned. -/
def layout (current_bounds : Rect) (window_size : Size) : LayoutInfo :=
  let window_rect := Rect.from_size window_size
  let wp : ℚ × Bool :=
    if current_bounds.width > window_rect.width then (window_rect.width, true)
    else (current_bounds.width, false)
  let hp : ℚ × Bool :=
    if current_bounds.height > window_rect.height then (window_rect.height, true)
    else (current_bounds.height, false)
  let xp : ℚ × Bool :=
    if current_bounds.min_x ≤ 0 then (0, true)
    else if current_bounds.min_x + wp.1 > window_size.width then
      (window_size.width - wp.1, true)
    else (current_bounds.min_x, false)
  let yp : ℚ × Bool :=
    if current_bounds.min_y ≤ 0 then (0, true)
    else if current_bounds.min_y + hp.1 > window_size.height then
      (window_size.height - hp.1, true)
    else (current_bounds.min_y, false)
  let new_bounds : Option Rect :=
    if wp.2 || hp.2 || xp.2 || yp.2 then
      some ⟨⟨xp.1, yp.1⟩, ⟨wp.1, hp.1⟩⟩
    else none
  ⟨new_bounds, wp.2, hp.2⟩

/-- The rectangle a caller effectively keeps after a `layout` call: the
corrected bounds when a correction was reported, the original bounds
otherwise (this is how both call sites in `on_event` use the result). -/
def layout_apply (current_bounds : Rect) (window_size : Size) : Rect :=
  (layout current_bounds window_size).new_bounds.getD current_bounds

theorem layout_none_iff (x y w h vw vh : ℚ) :
    (layout ⟨⟨x, y⟩, ⟨w, h⟩⟩ ⟨vw, vh⟩).new_bounds = none ↔
      0 < x ∧ 0 < y ∧ w ≤ vw ∧ h ≤ vh ∧ x + w ≤ vw ∧ y + h ≤ vh := by
  simp only [layout, Rect.from_size, Rect.width, Rect.height, Rect.min_x, Rect.min_y]
  split_ifs <;>
    simp_all <;>
    constructor <;>
    intros <;>
    first
      | linarith
      | (constructor <;> intros <;> linarith)

/-- Proof helper describing the position correction `layout` performs on
one axis: snap to 0 when at or before the leading edge, align to the
trailing edge on overflow, keep the coordinate otherwise. -/
def snap (t len limit : ℚ) : ℚ :=
  if t ≤ 0 then 0 else if t + len > limit then limit - len else t

theorem snap_snap (t len limit : ℚ) (h : len ≤ limit) :
    snap (snap t len limit) len limit = snap t len limit := by
  unfold snap
  split_ifs <;> first | rfl | linarith

set_option maxHeartbeats 1000000 in
theorem layout_eval (x y w h vw vh : ℚ) :
    layout ⟨⟨x, y⟩, ⟨w, h⟩⟩ ⟨vw, vh⟩ =
      ⟨if 0 < x ∧ 0 < y ∧ w ≤ vw ∧ h ≤ vh ∧ x + w ≤ vw ∧ y + h ≤ vh then none
        else some ⟨⟨snap x (min w vw) vw, snap y (min h vh) vh⟩, ⟨min w vw, min h vh⟩⟩,
       decide (w > vw), decide (h > vh)⟩ := by
  rcases le_or_lt w vw with hw | hw <;> rcases le_or_lt h vh with hh | hh
  · have hw' : ¬ (w > vw) := not_lt.mpr hw
    have hh' : ¬ (h > vh) := not_lt.mpr hh
    rw [min_eq_left hw, min_eq_left hh]
    unfold layout snap
    simp only [Rect.from_size, Rect.width, Rect.height, Rect.min_x, Rect.min_y,
      if_neg hw', if_neg hh']
    by_cases hx0 : x ≤ 0 <;> by_cases hy0 : y ≤ 0 <;>
      by_cases hxo : x + w > vw <;> by_cases hyo : y + h > vh <;>
      simp_all [not_le, not_lt] <;>
      (try split_ifs) <;> first | rfl | linarith | (exfalso; linarith) | simp_all
  · have hw' : ¬ (w > vw) := not_lt.mpr hw
    rw [min_eq_left hw, min_eq_right hh.le]
    unfold layout snap
    simp only [Rect.from_size, Rect.width, Rect.height, Rect.min_x, Rect.min_y,
      if_neg hw', if_pos hh]
    by_cases hx0 : x ≤ 0 <;> by_cases hy0 : y ≤ 0 <;>
      by_cases hxo : x + w > vw <;> by_cases hyo : y + vh > vh <;>
      simp_all [not_le, not_lt] <;>
      (try split_ifs) <;> first | rfl | linarith | (exfalso; linarith) | simp_all
  · have hh' : ¬ (h > vh) := not_lt.mpr hh
    rw [min_eq_right hw.le, min_eq_left hh]
    unfold layout snap
    simp only [Rect.from_size, Rect.width, Rect.height, Rect.min_x, Rect.min_y,
      if_pos hw, if_neg hh']
    by_cases hx0 : x ≤ 0 <;> by_cases hy0 : y ≤ 0 <;>
      by_cases hxo : x + vw > vw <;> by_cases hyo : y + h > vh <;>
      simp_all [not_le, not_lt] <;>
      (try split_ifs) <;> first | rfl | linarith | (exfalso; linarith) | simp_all
  · rw [min_eq_right hw.le, min_eq_right hh.le]
    unfold layout snap
    simp only [Rect.from_size, Rect.width, Rect.height, Rect.min_x, Rect.min_y,
      if_pos hw, if_pos hh]
    by_cases hx0 : x ≤ 0 <;> by_cases hy0 : y ≤ 0 <;>
      by_cases hxo : x + vw > vw <;> by_cases hyo : y + vh > vh <;>
      simp_all [not_le, not_lt] <;>
      (try split_ifs) <;> first | rfl | linarith | (exfalso; linarith) | simp_all

theorem layout_apply_eval (x y w h vw vh : ℚ) :
    layout_apply ⟨⟨x, y⟩, ⟨w, h⟩⟩ ⟨vw, vh⟩ =
      ⟨⟨snap x (min w vw) vw, snap y (min h vh) vh⟩, ⟨min w vw, min h vh⟩⟩ := by
  rw [layout_apply, layout_eval]
  split_ifs with hin
  · obtain ⟨h1, h2, h3, h4, h5, h6⟩ := hin
    rw [min_eq_left h3, min_eq_left h4]
    unfold snap
    rw [if_neg (not_le.mpr h1), if_neg (not_lt.mpr h5),
      if_neg (not_le.mpr h2), if_neg (not_lt.mpr h6)]
    rfl
  · rfl

theorem layout_apply_idem (r : Rect) (v : Size) :
    layout_apply (layout_apply r v) v = layout_apply r v := by
  obtain ⟨⟨x, y⟩, ⟨w, h⟩⟩ := r
  obtain ⟨vw, vh⟩ := v
  rw [layout_apply_eval, layout_apply_eval]
  simp [min_eq_left (min_le_right w vw), min_eq_left (min_le_right h vh),
    snap_snap, min_le_right]

/-- `crate::layout::Padding` (top, right, bottom, left). -/
structure Padding where
  top : ℚ
  right : ℚ
  bottom : ℚ
  left : ℚ
deriving DecidableEq

/-- The fields of `DropDownMenuStyle` that the measurement, hit-testing and
drain logic reads. The text properties of each column are represented by
their line height (`left_text_properties.metrics.line_height` in the source;
text shaping itself is an external collaborator); the purely visual fields
(colors, quad styles) are not consumed by the logic under verification and
are omitted. -/
structure DropDownMenuStyle where
  left_text_line_height : ℚ
  right_text_line_height : ℚ
  outer_padding : ℚ
  left_text_padding : Padding
  right_text_padding : Padding
  divider_width : ℚ
  divider_padding : ℚ
deriving DecidableEq

/-- `DropDownMenuStyle::text_row_height`. -/
def DropDownMenuStyle.text_row_height (s : DropDownMenuStyle) : ℚ :=
  max (s.left_text_line_height + s.left_text_padding.top + s.left_text_padding.bottom)
    (s.right_text_line_height + s.right_text_padding.top + s.right_text_padding.bottom)

/-- `MenuEntry` from `drop_down_menu.rs`: the public entry description. -/
inductive MenuEntry where
  | option (left_text : String) (right_text : String) (unique_id : ℕ)
  | divider
deriving DecidableEq

/-- `MenuEntryInner`: the element-side entry with laid-out offsets. The
`dual_label` field of an option is represented by its two text strings (the
shaped label state lives in the external text engine). -/
inductive MenuEntryInner where
  | option (left_text : String) (right_text : String) (start_y : ℚ) (end_y : ℚ)
      (unique_id : ℕ)
  | divider (y : ℚ)
deriving DecidableEq

/-- Construction of a `MenuEntryInner` from a `MenuEntry` (the closure used
both in `DropDownMenuElement::create` and in the `CustomStateChanged` drain):
offsets start at 0 until a measurement pass assigns them. -/
def menu_entry_inner : MenuEntry → MenuEntryInner
  | .option lt rt id => .option lt rt 0 0 id
  | .divider => .divider 0

/-- The measurement loop of `DropDownMenuStyle::measure`: walks the entries
accumulating a running vertical offset, assigning each option's
`(start_y, end_y)` and each divider's `y`, and tracking the maximal label
width and the total height. `label_width` stands for the external
`dual_label.desired_padded_size(..).width` text-measurement call. -/
def measure_go (row_height divider_width divider_pad : ℚ)
    (label_width : String → String → ℚ) :
    List MenuEntryInner → ℚ → ℚ → List MenuEntryInner × ℚ × ℚ
  | [], max_width, total_height => ([], max_width, total_height)
  | .option lt rt _ _ id :: rest, max_width, total_height =>
      (.option lt rt total_height (total_height + row_height) id ::
        (measure_go row_height divider_width divider_pad label_width rest
          (max max_width (label_width lt rt)) (total_height + row_height)).1,
       (measure_go row_height divider_width divider_pad label_width rest
          (max max_width (label_width lt rt)) (total_height + row_height)).2)
  | .divider _ :: rest, max_width, total_height =>
      (.divider (total_height + divider_pad) ::
        (measure_go row_height divider_width divider_pad label_width rest
          max_width (total_height + divider_width + divider_pad + divider_pad)).1,
       (measure_go row_height divider_width divider_pad label_width rest
          max_width (total_height + divider_width + divider_pad + divider_pad)).2)

/-- `DropDownMenuStyle::measure` (lines 159-198): assigns row offsets to the
entries and returns the overall menu size; empty entry lists produce the
default (zero) size and no offsets. -/
def DropDownMenuStyle.measure (s : DropDownMenuStyle)
    (label_width : String → String → ℚ) (entries : List MenuEntryInner) :
    List MenuEntryInner × Size :=
  if entries.isEmpty then (entries, Size.zero)
  else
    let r := measure_go s.text_row_height s.divider_width s.divider_padding
      label_width entries 0 s.outer_padding
    (r.1, ⟨(⌈r.2.1⌉ : ℤ) + s.outer_padding * 2, r.2.2 + s.outer_padding⟩)

/-- The hit-test scan of `PointerEvent::Moved` (lines 456-469): index of the
first option entry whose half-open `[start_y, end_y)` interval contains the
pointer's vertical offset; dividers are skipped. -/
def hit_entry_index : List MenuEntryInner → ℚ → Option ℕ
  | [], _ => none
  | .option _ _ s e _ :: rest, y =>
      if s ≤ y ∧ y < e then some 0 else (hit_entry_index rest y).map (· + 1)
  | .divider _ :: rest, y => (hit_entry_index rest y).map (· + 1)

/-- The hit-test scan of `PointerEvent::ButtonJustPressed` (lines 500-515):
the `unique_id` of the first option whose interval contains the offset. -/
def hit_entry_id : List MenuEntryInner → ℚ → Option ℕ
  | [], _ => none
  | .option _ _ s e id :: rest, y =>
      if s ≤ y ∧ y < e then some id else hit_entry_id rest y
  | .divider _ :: rest, y => hit_entry_id rest y

/-- The menu's `SharedState`: the shared configuration cell behind the
handle/element split. -/
structure SharedState where
  style : DropDownMenuStyle
  new_entries : Option (List MenuEntry)
  open_requested : Bool
  style_changed : Bool
deriving DecidableEq

/-- `DropDownMenu::set_entries` (lines 664-667): unconditionally overwrite
any pending undrained replacement in the cell (the accompanying
`notify_custom_state_change` is the delivery of `CustomStateChanged`). -/
def DropDownMenu.set_entries (shared : SharedState) (entries : List MenuEntry) :
    SharedState :=
  { shared with new_entries := some entries }

/-- The element-side state of `DropDownMenuElement` (minus the action
closure, represented by the flag `has_action`). -/
structure DropDownMenuElementM where
  entries : List MenuEntryInner
  size : Size
  active : Bool
  hovered_entry_index : Option ℕ
  has_action : Bool
deriving DecidableEq

/-- `PointerButton`. -/
inductive PointerButton where
  | primary
  | secondary
  | auxiliary
deriving DecidableEq

/-- The events `DropDownMenuElement::on_event` distinguishes. -/
inductive MenuEvent where
  | customStateChanged
  | clickedOff
  | exclusiveFocus (focused : Bool)
  | pointerMoved (position : Point)
  | pointerLeft
  | buttonJustPressed (button : PointerButton) (position : Point)
  | pointerOther
  | positionChanged
deriving DecidableEq

/-- The side effects an `on_event` call issues through the element context. -/
structure MenuEffects where
  repaint : Bool
  set_bounds : Option Rect
  focus_stolen : Bool
  focus_released : Bool
  listen_clicked_off : Bool
  actions : List ℕ
  restyled : Bool
  measured : Bool
  captured : Bool
deriving DecidableEq

/-- No side effects. -/
def no_menu_effects : MenuEffects := ⟨false, none, false, false, false, [], false, false, false⟩

/-- `DropDownMenuElement::on_event` (lines 339-550). `rect` is the current
bounding rectangle `cx.rect()` and `window_size` is `cx.window_size()`;
`label_width` is the external text measurement; `channel_ok` tells whether
`cx.send_action` accepts a payload — a rejected payload makes the source
panic via `.unwrap()`, modelled as `Except.error`. -/
def menu_on_event (shared : SharedState) (elem : DropDownMenuElementM)
    (rect : Rect) (window_size : Size) (label_width : String → String → ℚ)
    (channel_ok : Bool) :
    MenuEvent → Except Unit (SharedState × DropDownMenuElementM × MenuEffects)
  | .customStateChanged =>
      let opened := shared.open_requested && !elem.active
      let active1 := elem.active || opened
      let do_restyle := shared.style_changed && shared.new_entries.isNone
      let entries1 := match shared.new_entries with
        | some nes => nes.map menu_entry_inner
        | none => elem.entries
      let need_measure := shared.new_entries.isSome || do_restyle
      let shared1 : SharedState :=
        { style := shared.style, new_entries := none,
          open_requested := false, style_changed := false }
      if need_measure then
        let m := shared.style.measure label_width entries1
        if active1 then
          let r : Rect := ⟨rect.origin, m.2⟩
          let bounds := (layout r window_size).new_bounds.getD r
          .ok (shared1,
            { elem with entries := m.1, size := m.2, active := active1 },
            { no_menu_effects with
                repaint := true, set_bounds := some bounds,
                restyled := do_restyle, measured := true,
                focus_stolen := opened, listen_clicked_off := opened })
        else
          .ok (shared1,
            { elem with entries := m.1, size := m.2, active := active1 },
            { no_menu_effects with
                set_bounds := some ⟨rect.origin, Size.zero⟩,
                restyled := do_restyle, measured := true })
      else if opened then
        let r : Rect := ⟨rect.origin, elem.size⟩
        let bounds := (layout r window_size).new_bounds.getD r
        .ok (shared1, { elem with active := true },
          { no_menu_effects with
              set_bounds := some bounds,
              focus_stolen := true, listen_clicked_off := true })
      else
        .ok (shared1, elem, no_menu_effects)
  | .clickedOff =>
      .ok (shared, elem, { no_menu_effects with focus_released := true })
  | .exclusiveFocus focused =>
      if focused then .ok (shared, elem, no_menu_effects)
      else
        .ok (shared,
          { elem with active := false, hovered_entry_index := none },
          { no_menu_effects with
              focus_released := true,
              set_bounds := some ⟨rect.origin, Size.zero⟩ })
  | .pointerMoved position =>
      if !elem.active then .ok (shared, elem, no_menu_effects)
      else
        let pointer_y := position.y - rect.min_y
        let new_hovered := if rect.contains position then
            hit_entry_index elem.entries pointer_y
          else none
        .ok (shared, { elem with hovered_entry_index := new_hovered },
          { no_menu_effects with
              repaint := decide (elem.hovered_entry_index ≠ new_hovered),
              captured := true })
  | .pointerLeft =>
      if !elem.active then .ok (shared, elem, no_menu_effects)
      else .ok (shared, elem, { no_menu_effects with captured := true })
  | .buttonJustPressed button position =>
      if !elem.active then .ok (shared, elem, no_menu_effects)
      else if button = PointerButton.primary ∧ rect.contains position then
        match hit_entry_id elem.entries (position.y - rect.min_y) with
        | some id =>
            if elem.has_action then
              if channel_ok then
                .ok (shared, elem,
                  { no_menu_effects with
                      actions := [id], focus_released := true, captured := true })
              else .error ()
            else
              .ok (shared, elem,
                { no_menu_effects with focus_released := true, captured := true })
        | none => .ok (shared, elem, { no_menu_effects with captured := true })
      else .ok (shared, elem, { no_menu_effects with captured := true })
  | .pointerOther =>
      if !elem.active then .ok (shared, elem, no_menu_effects)
      else .ok (shared, elem, { no_menu_effects with captured := true })
  | .positionChanged =>
      if !elem.active then .ok (shared, elem, no_menu_effects)
      else
        .ok (shared, elem,
          { no_menu_effects with set_bounds := (layout rect window_size).new_bounds })

/-- Modelled from the spec: `ButtonState` is declared in the sibling
`button` module (not part of the sources here); §4.2 fixes its states as
Idle, Hovered, Pressed (a.k.a. Down) and Disabled. -/
inductive ButtonState where
  | idle
  | hovered
  | down
  | disabled
deriving DecidableEq

/-- An RGBA8 color (external style value type, kept concrete so that style
part comparison is structural as in the derived `PartialEq`). -/
structure RGBA8 where
  r : ℕ
  g : ℕ
  b : ℕ
  a : ℕ
deriving DecidableEq

/-- A quad style (external declarative style value type: background color
plus border description), kept concrete for structural comparison. -/
structure QuadStyle where
  bg : RGBA8
  border_color : RGBA8
  border_width : ℚ
  border_radius : ℚ
deriving DecidableEq

/-- Modelled from the spec: `ButtonStylePart` is declared in the sibling
`button` module (not part of the sources here); §3 fixes a style part as a
(font color, background description) pair. -/
structure ButtonStylePart where
  font_color : RGBA8
  back_quad : QuadStyle
deriving DecidableEq

/-- The six style parts of `ToggleButtonStyle` consumed by the state
machine (the text properties, alignment and padding fields are only used by
the external label rendering and are omitted). -/
structure ToggleButtonStyle where
  idle_on : ButtonStylePart
  hovered_on : ButtonStylePart
  disabled_on : ButtonStylePart
  idle_off : ButtonStylePart
  hovered_off : ButtonStylePart
  disabled_off : ButtonStylePart
deriving DecidableEq

/-- The style-part lookup that `ToggleButtonStyle::label_style` and both
halves of `ToggleButtonInner::set_state` perform: keyed by the toggle flag
and the interaction state, with Hovered and Down sharing a part. -/
def ToggleButtonStyle.part (style : ToggleButtonStyle) (state : ButtonState)
    (toggled : Bool) : ButtonStylePart :=
  if toggled then
    match state with
    | .idle => style.idle_on
    | .hovered | .down => style.hovered_on
    | .disabled => style.disabled_on
  else
    match state with
    | .idle => style.idle_off
    | .hovered | .down => style.hovered_off
    | .disabled => style.disabled_off

/-- `StateChangeResult` from `toggle_button.rs`. -/
structure StateChangeResult where
  state_changed : Bool
  needs_repaint : Bool
deriving DecidableEq

/-- `ToggleButtonInner` (the label state lives in the external text
engine and is omitted): interaction state plus the orthogonal toggle flag. -/
structure ToggleButtonInner where
  state : ButtonState
  toggled : Bool
deriving DecidableEq

/-- `ToggleButtonInner::set_state` (lines 221-269): change the interaction
state, requesting a repaint exactly when the style parts resolved for the
old and the new state (at the current toggle flag) differ. -/
def ToggleButtonInner.set_state (inner : ToggleButtonInner) (state : ButtonState)
    (style : ToggleButtonStyle) : ToggleButtonInner × StateChangeResult :=
  if inner.state ≠ state then
    let old_part := style.part inner.state inner.toggled
    let new_part := style.part state inner.toggled
    ({ inner with state := state }, ⟨true, decide (old_part ≠ new_part)⟩)
  else (inner, ⟨false, false⟩)

/-- `ToggleButtonInner::set_toggled` (lines 280-294): change the toggle
flag; any actual change reports `needs_repaint := true` unconditionally. -/
def ToggleButtonInner.set_toggled (inner : ToggleButtonInner) (toggled : Bool) :
    ToggleButtonInner × StateChangeResult :=
  if inner.toggled ≠ toggled then
    ({ inner with toggled := toggled }, ⟨true, true⟩)
  else (inner, ⟨false, false⟩)

/-- `ToggleButton::set_disabled` (lines 691-702), acting on the inner state
held in the handle's shared cell; the returned flag is whether
`notify_custom_state_change` was emitted. -/
def ToggleButton.set_disabled (inner : ToggleButtonInner)
    (style : ToggleButtonStyle) (disabled : Bool) : ToggleButtonInner × Bool :=
  if disabled ∧ inner.state ≠ ButtonState.disabled then
    ((inner.set_state ButtonState.disabled style).1, true)
  else if ¬ disabled ∧ inner.state = ButtonState.disabled then
    ((inner.set_state ButtonState.idle style).1, true)
  else (inner, false)

/-- The element-side state of `ToggleButtonElement` (the action closure is
represented by the flag `has_action`). -/
structure ToggleButtonElementM where
  inner : ToggleButtonInner
  has_action : Bool
  tooltip_message : Option String
deriving DecidableEq

/-- The events `ToggleButtonElement::on_event` distinguishes. `moved`
carries `just_entered`; `buttonJustReleased` carries the result of
`cx.is_point_within_visible_bounds(position)`. -/
inductive ToggleEvent where
  | customStateChanged
  | moved (just_entered : Bool)
  | pointerLeft
  | buttonJustPressed (button : PointerButton)
  | buttonJustReleased (button : PointerButton) (inside : Bool)
  | hoverTimeout
  | otherEvent
deriving DecidableEq

/-- The side effects a toggle-button `on_event` call issues. `actions`
lists the payloads handed to `cx.send_action` (the toggle value passed to
the user's action closure). -/
structure ToggleEffects where
  repaint : Bool
  actions : List Bool
  hover_timeout_started : Bool
  tooltip_shown : Bool
  captured : Bool
deriving DecidableEq

/-- No side effects. -/
def no_toggle_effects : ToggleEffects := ⟨false, [], false, false, false⟩

/-- `ToggleButtonElement::on_event` (lines 490-595). `channel_ok` tells
whether `cx.send_action` accepts the payload — a rejected payload makes the
source panic via `.unwrap()`, modelled as `Except.error`. -/
def toggle_on_event (elem : ToggleButtonElementM) (style : ToggleButtonStyle)
    (channel_ok : Bool) :
    ToggleEvent → Except Unit (ToggleButtonElementM × ToggleEffects)
  | .customStateChanged =>
      .ok (elem, { no_toggle_effects with repaint := true })
  | .moved just_entered =>
      if elem.inner.state = ButtonState.disabled then .ok (elem, no_toggle_effects)
      else
        let start_timeout := just_entered && elem.tooltip_message.isSome
        if elem.inner.state = ButtonState.idle then
          let r := elem.inner.set_state ButtonState.hovered style
          .ok ({ elem with inner := r.1 },
            { no_toggle_effects with
                repaint := r.2.needs_repaint,
                hover_timeout_started := start_timeout, captured := true })
        else
          .ok (elem,
            { no_toggle_effects with
                hover_timeout_started := start_timeout, captured := true })
  | .pointerLeft =>
      if elem.inner.state = ButtonState.hovered ∨ elem.inner.state = ButtonState.down then
        let r := elem.inner.set_state ButtonState.idle style
        .ok ({ elem with inner := r.1 },
          { no_toggle_effects with repaint := r.2.needs_repaint, captured := true })
      else .ok (elem, no_toggle_effects)
  | .buttonJustPressed button =>
      if button = PointerButton.primary ∧
          (elem.inner.state = ButtonState.idle ∨ elem.inner.state = ButtonState.hovered) then
        let r1 := elem.inner.set_state ButtonState.down style
        let r2 := r1.1.set_toggled (!r1.1.toggled)
        let repaint := r1.2.needs_repaint || r2.2.needs_repaint
        if elem.has_action then
          if channel_ok then
            .ok ({ elem with inner := r2.1 },
              { no_toggle_effects with
                  repaint := repaint, actions := [r2.1.toggled], captured := true })
          else .error ()
        else
          .ok ({ elem with inner := r2.1 },
            { no_toggle_effects with repaint := repaint, captured := true })
      else .ok (elem, no_toggle_effects)
  | .buttonJustReleased button inside =>
      if button = PointerButton.primary ∧
          (elem.inner.state = ButtonState.down ∨ elem.inner.state = ButtonState.hovered) then
        let new_state := if inside then ButtonState.hovered else ButtonState.idle
        let r := elem.inner.set_state new_state style
        .ok ({ elem with inner := r.1 },
          { no_toggle_effects with repaint := r.2.needs_repaint, captured := true })
      else .ok (elem, no_toggle_effects)
  | .hoverTimeout =>
      .ok (elem,
        { no_toggle_effects with tooltip_shown := elem.tooltip_message.isSome })
  | .otherEvent => .ok (elem, no_toggle_effects)

/-- The pointer-driven events among `ToggleEvent` (move, leave, press,
release, hover timeout). -/
def ToggleEvent.is_pointer : ToggleEvent → Bool
  | .moved _ => true
  | .pointerLeft => true
  | .buttonJustPressed _ => true
  | .buttonJustReleased _ _ => true
  | .hoverTimeout => true
  | _ => false

theorem measure_go_option_start (rowH dw dp : ℚ) (lw : String → String → ℚ)
    (h1 : 0 ≤ rowH) (h2 : 0 ≤ dw) (h3 : 0 ≤ dp) :
    ∀ (es : List MenuEntryInner) (mw t : ℚ) (i : ℕ) (lt rt : String) (s e : ℚ) (id : ℕ),
      (measure_go rowH dw dp lw es mw t).1[i]? =
        some (MenuEntryInner.option lt rt s e id) →
      t ≤ s ∧ e = s + rowH := by
  intro es
  induction es with
  | nil => intro mw t i lt rt s e id hmem; simp [measure_go] at hmem
  | cons hd rest ih =>
      intro mw t i lt rt s e id hmem
      cases hd with
      | option lt0 rt0 s0 e0 id0 =>
          simp only [measure_go] at hmem
          cases i with
          | zero =>
              simp only [List.getElem?_cons_zero, Option.some.injEq,
                MenuEntryInner.option.injEq] at hmem
              obtain ⟨-, -, hs, he, -⟩ := hmem
              exact ⟨le_of_eq hs, by rw [← he, hs]⟩
          | succ n =>
              simp only [List.getElem?_cons_succ] at hmem
              obtain ⟨ha, hb⟩ := ih _ _ n lt rt s e id hmem
              exact ⟨by linarith, hb⟩
      | divider y0 =>
          simp only [measure_go] at hmem
          cases i with
          | zero => simp at hmem
          | succ n =>
              simp only [List.getElem?_cons_succ] at hmem
              obtain ⟨ha, hb⟩ := ih _ _ n lt rt s e id hmem
              exact ⟨by linarith, hb⟩

theorem measure_go_divider_y (rowH dw dp : ℚ) (lw : String → String → ℚ)
    (h1 : 0 ≤ rowH) (h2 : 0 ≤ dw) (h3 : 0 ≤ dp) :
    ∀ (es : List MenuEntryInner) (mw t : ℚ) (i : ℕ) (yd : ℚ),
      (measure_go rowH dw dp lw es mw t).1[i]? = some (MenuEntryInner.divider yd) →
      t + dp ≤ yd := by
  intro es
  induction es with
  | nil => intro mw t i yd hmem; simp [measure_go] at hmem
  | cons hd rest ih =>
      intro mw t i yd hmem
      cases hd with
      | option lt0 rt0 s0 e0 id0 =>
          simp only [measure_go] at hmem
          cases i with
          | zero => simp at hmem
          | succ n =>
              simp only [List.getElem?_cons_succ] at hmem
              have := ih _ _ n yd hmem
              linarith
      | divider y0 =>
          simp only [measure_go] at hmem
          cases i with
          | zero =>
              simp only [List.getElem?_cons_zero, Option.some.injEq,
                MenuEntryInner.divider.injEq] at hmem
              linarith [hmem.ge]
          | succ n =>
              simp only [List.getElem?_cons_succ] at hmem
              have := ih _ _ n yd hmem
              linarith

theorem hit_entry_index_none_of_lt (rowH dw dp : ℚ) (lw : String → String → ℚ)
    (h1 : 0 ≤ rowH) (h2 : 0 ≤ dw) (h3 : 0 ≤ dp) :
    ∀ (es : List MenuEntryInner) (mw t y : ℚ), y < t →
      hit_entry_index (measure_go rowH dw dp lw es mw t).1 y = none := by
  intro es
  induction es with
  | nil => intro mw t y hy; simp [measure_go, hit_entry_index]
  | cons hd rest ih =>
      intro mw t y hy
      cases hd with
      | option lt0 rt0 s0 e0 id0 =>
          simp only [measure_go, hit_entry_index]
          rw [if_neg (by intro hc; linarith [hc.1]), ih _ _ y (by linarith)]
          rfl
      | divider y0 =>
          simp only [measure_go, hit_entry_index]
          rw [ih _ _ y (by linarith)]
          rfl

theorem measure_go_hit_index (rowH dw dp : ℚ) (lw : String → String → ℚ)
    (h1 : 0 ≤ rowH) (h2 : 0 ≤ dw) (h3 : 0 ≤ dp) :
    ∀ (es : List MenuEntryInner) (mw t : ℚ) (i : ℕ) (lt rt : String) (s e : ℚ)
      (id : ℕ) (y : ℚ),
      (measure_go rowH dw dp lw es mw t).1[i]? =
        some (MenuEntryInner.option lt rt s e id) →
      s ≤ y → y < e →
      hit_entry_index (measure_go rowH dw dp lw es mw t).1 y = some i := by
  intro es
  induction es with
  | nil => intro mw t i lt rt s e id y hmem; simp [measure_go] at hmem
  | cons hd rest ih =>
      intro mw t i lt rt s e id y hmem hsy hye
      cases hd with
      | option lt0 rt0 s0 e0 id0 =>
          simp only [measure_go] at hmem ⊢
          cases i with
          | zero =>
              simp only [List.getElem?_cons_zero, Option.some.injEq,
                MenuEntryInner.option.injEq] at hmem
              obtain ⟨-, -, hs, he, -⟩ := hmem
              simp only [hit_entry_index]
              rw [if_pos ⟨by linarith [hs.ge], by linarith [he.le]⟩]
          | succ n =>
              simp only [List.getElem?_cons_succ] at hmem
              obtain ⟨hts, -⟩ := measure_go_option_start rowH dw dp lw h1 h2 h3
                rest _ _ n lt rt s e id hmem
              simp only [hit_entry_index]
              rw [if_neg (by intro hc; linarith [hc.2]),
                ih _ _ n lt rt s e id y hmem hsy hye]
              rfl
      | divider y0 =>
          simp only [measure_go] at hmem ⊢
          cases i with
          | zero => simp at hmem
          | succ n =>
              simp only [List.getElem?_cons_succ] at hmem
              simp only [hit_entry_index]
              rw [ih _ _ n lt rt s e id y hmem hsy hye]
              rfl

theorem measure_go_divider_no_hit (rowH dw dp : ℚ) (lw : String → String → ℚ)
    (h1 : 0 ≤ rowH) (h2 : 0 < dw) (h3 : 0 ≤ dp) :
    ∀ (es : List MenuEntryInner) (mw t : ℚ) (i : ℕ) (yd : ℚ),
      (measure_go rowH dw dp lw es mw t).1[i]? = some (MenuEntryInner.divider yd) →
      hit_entry_index (measure_go rowH dw dp lw es mw t).1 yd = none := by
  intro es
  induction es with
  | nil => intro mw t i yd hmem; simp [measure_go] at hmem
  | cons hd rest ih =>
      intro mw t i yd hmem
      cases hd with
      | option lt0 rt0 s0 e0 id0 =>
          simp only [measure_go] at hmem ⊢
          cases i with
          | zero => simp at hmem
          | succ n =>
              simp only [List.getElem?_cons_succ] at hmem
              have hyd := measure_go_divider_y rowH dw dp lw h1 h2.le h3
                rest _ _ n yd hmem
              simp only [hit_entry_index]
              rw [if_neg (by intro hc; linarith [hc.2]), ih _ _ n yd hmem]
              rfl
      | divider y0 =>
          simp only [measure_go] at hmem ⊢
          cases i with
          | zero =>
              simp only [List.getElem?_cons_zero, Option.some.injEq,
                MenuEntryInner.divider.injEq] at hmem
              simp only [hit_entry_index]
              rw [hit_entry_index_none_of_lt rowH dw dp lw h1 h2.le h3 rest _ _ yd
                (by rw [← hmem]; linarith)]
              rfl
          | succ n =>
              simp only [List.getElem?_cons_succ] at hmem
              simp only [hit_entry_index]
              rw [ih _ _ n yd hmem]
              rfl

theorem measure_go_ordered (rowH dw dp : ℚ) (lw : String → String → ℚ)
    (h1 : 0 ≤ rowH) (h2 : 0 ≤ dw) (h3 : 0 ≤ dp) :
    ∀ (es : List MenuEntryInner) (mw t : ℚ) (i j : ℕ) (lt1 rt1 : String)
      (s1 e1 : ℚ) (id1 : ℕ) (lt2 rt2 : String) (s2 e2 : ℚ) (id2 : ℕ),
      i < j →
      (measure_go rowH dw dp lw es mw t).1[i]? =
        some (MenuEntryInner.option lt1 rt1 s1 e1 id1) →
      (measure_go rowH dw dp lw es mw t).1[j]? =
        some (MenuEntryInner.option lt2 rt2 s2 e2 id2) →
      e1 ≤ s2 := by
  intro es
  induction es with
  | nil => intro mw t i j lt1 rt1 s1 e1 id1 lt2 rt2 s2 e2 id2 hij hm1 hm2
           simp [measure_go] at hm1
  | cons hd rest ih =>
      intro mw t i j lt1 rt1 s1 e1 id1 lt2 rt2 s2 e2 id2 hij hm1 hm2
      cases hd with
      | option lt0 rt0 s0 e0 id0 =>
          simp only [measure_go] at hm1 hm2
          cases i with
          | zero =>
              simp only [List.getElem?_cons_zero, Option.some.injEq,
                MenuEntryInner.option.injEq] at hm1
              obtain ⟨-, -, -, he1, -⟩ := hm1
              cases j with
              | zero => omega
              | succ m =>
                  simp only [List.getElem?_cons_succ] at hm2
                  obtain ⟨hts, -⟩ := measure_go_option_start rowH dw dp lw h1 h2 h3
                    rest _ _ m lt2 rt2 s2 e2 id2 hm2
                  linarith [he1.le]
          | succ n =>
              cases j with
              | zero => omega
              | succ m =>
                  simp only [List.getElem?_cons_succ] at hm1 hm2
                  exact ih _ _ n m lt1 rt1 s1 e1 id1 lt2 rt2 s2 e2 id2
                    (Nat.succ_lt_succ_iff.mp hij) hm1 hm2
      | divider y0 =>
          simp only [measure_go] at hm1 hm2
          cases i with
          | zero => simp at hm1
          | succ n =>
              cases j with
              | zero => omega
              | succ m =>
                  simp only [List.getElem?_cons_succ] at hm1 hm2
                  exact ih _ _ n m lt1 rt1 s1 e1 id1 lt2 rt2 s2 e2 id2
                    (Nat.succ_lt_succ_iff.mp hij) hm1 hm2

/-- Claim C10: `layout(r, v)` returns no correction (`new_bounds = none`)
exactly when r's left and top edges are strictly positive, its width and
height do not exceed the viewport's, and its right and bottom edges do not
exceed the viewport's; and a rectangle whose left (resp. top) edge equals
exactly 0 and which otherwise fits inside the viewport is reported as
corrected even though the corrected rectangle equals the input. -/
theorem layout_no_correction_iff_strictly_inside (x y w h vw vh : ℚ) :
    ((layout ⟨⟨x, y⟩, ⟨w, h⟩⟩ ⟨vw, vh⟩).new_bounds = none ↔
      0 < x ∧ 0 < y ∧ w ≤ vw ∧ h ≤ vh ∧ x + w ≤ vw ∧ y + h ≤ vh) ∧
    (x = 0 → 0 < y → w ≤ vw → y + h ≤ vh →
      (layout ⟨⟨x, y⟩, ⟨w, h⟩⟩ ⟨vw, vh⟩).new_bounds = some ⟨⟨x, y⟩, ⟨w, h⟩⟩) ∧
    (y = 0 → 0 < x → h ≤ vh → x + w ≤ vw →
      (layout ⟨⟨x, y⟩, ⟨w, h⟩⟩ ⟨vw, vh⟩).new_bounds = some ⟨⟨x, y⟩, ⟨w, h⟩⟩) := by
  refine ⟨layout_none_iff x y w h vw vh, ?_, ?_⟩
  · intro hx hy hw hyh
    subst hx
    simp only [layout_eval]
    rw [if_neg (by intro hc; exact lt_irrefl 0 hc.1)]
    have hh' : h ≤ vh := by linarith
    rw [min_eq_left hw, min_eq_left hh']
    unfold snap
    rw [if_pos le_rfl, if_neg (not_le.mpr hy), if_neg (not_lt.mpr hyh)]
  · intro hy hx hh hxw
    subst hy
    simp only [layout_eval]
    rw [if_neg (by intro hc; exact lt_irrefl 0 hc.2.1)]
    have hw' : w ≤ vw := by linarith
    rw [min_eq_left hw', min_eq_left hh]
    unfold snap
    rw [if_neg (not_le.mpr hx), if_neg (not_lt.mpr hxw), if_pos le_rfl]

/-- Claim C10 witness: at the concrete input `r = (0, 50, 200, 100)`,
`v = (800, 600)` the left edge is exactly 0 and `layout` reports a
correction equal to the input rectangle. -/
theorem layout_no_correction_iff_strictly_inside_witness :
    (layout ⟨⟨0, 50⟩, ⟨200, 100⟩⟩ ⟨800, 600⟩).new_bounds =
      some ⟨⟨0, 50⟩, ⟨200, 100⟩⟩ :=
  (layout_no_correction_iff_strictly_inside 0 50 200 100 800 600).2.1 rfl
    (by norm_num) (by norm_num) (by norm_num)

/-- Claim C1 counterexample: for `r = (-10, 50, 200, 100)` inside viewport
`(800, 600)` the first `layout` call corrects the rectangle to
`(0, 50, 200, 100)`, and applying `layout` a second time to that output
again reports a correction (it does not return "no correction" as the
claim states), because a left edge equal to 0 re-triggers the snap. -/
theorem layout_second_call_still_corrects :
    (layout ⟨⟨-10, 50⟩, ⟨200, 100⟩⟩ ⟨800, 600⟩).new_bounds =
      some ⟨⟨0, 50⟩, ⟨200, 100⟩⟩ ∧
    (layout ⟨⟨0, 50⟩, ⟨200, 100⟩⟩ ⟨800, 600⟩).new_bounds ≠ none := by
  constructor
  · norm_num [layout_eval, snap, min_def]
  · intro hc
    simp only [layout_none_iff] at hc
    exact lt_irrefl (0 : ℚ) hc.1

/-- Claim C1 (amended): a rectangle strictly inside the viewport — left and
top edges strictly positive and right and bottom edges within the viewport —
gets "no correction"; and `layout` is idempotent in value: the rectangle a
caller keeps after the second call equals the one kept after the first, so
the second call either reports no correction or reports a corrected
rectangle equal to its input (it can report a correction, e.g. when the
first call snapped an edge to exactly 0). -/
theorem layout_strict_containment_and_value_idem (x y w h vw vh : ℚ) :
    (0 < x → 0 < y → x + w ≤ vw → y + h ≤ vh →
      (layout ⟨⟨x, y⟩, ⟨w, h⟩⟩ ⟨vw, vh⟩).new_bounds = none) ∧
    layout_apply (layout_apply ⟨⟨x, y⟩, ⟨w, h⟩⟩ ⟨vw, vh⟩) ⟨vw, vh⟩ =
      layout_apply ⟨⟨x, y⟩, ⟨w, h⟩⟩ ⟨vw, vh⟩ ∧
    ((layout (layout_apply ⟨⟨x, y⟩, ⟨w, h⟩⟩ ⟨vw, vh⟩) ⟨vw, vh⟩).new_bounds = none ∨
      (layout (layout_apply ⟨⟨x, y⟩, ⟨w, h⟩⟩ ⟨vw, vh⟩) ⟨vw, vh⟩).new_bounds =
        some (layout_apply ⟨⟨x, y⟩, ⟨w, h⟩⟩ ⟨vw, vh⟩)) := by
  have key : ∀ r : Rect, layout_apply r ⟨vw, vh⟩ = r →
      ((layout r ⟨vw, vh⟩).new_bounds = none ∨
        (layout r ⟨vw, vh⟩).new_bounds = some r) := by
    intro r hr
    unfold layout_apply at hr
    cases hnb : (layout r ⟨vw, vh⟩).new_bounds with
    | none => exact Or.inl rfl
    | some b =>
        right
        rw [hnb] at hr
        simp only [Option.getD_some] at hr
        rw [hr]
  refine ⟨?_, layout_apply_idem _ _, key _ (layout_apply_idem _ _)⟩
  intro hx hy hw hh
  exact (layout_none_iff x y w h vw vh).mpr
    ⟨hx, hy, by linarith, by linarith, hw, hh⟩

/-- Claim C1 witness: the rectangle `(10, 50, 200, 100)` is strictly inside
the viewport `(800, 600)` and `layout` reports no correction for it. -/
theorem layout_strict_containment_and_value_idem_witness :
    (layout ⟨⟨10, 50⟩, ⟨200, 100⟩⟩ ⟨800, 600⟩).new_bounds = none :=
  (layout_strict_containment_and_value_idem 10 50 200 100 800 600).1
    (by norm_num) (by norm_num) (by norm_num) (by norm_num)

/-- Claim C5: after a measurement pass the option entries' half-open
`[start_y, end_y)` intervals are pairwise non-overlapping and ordered
consistently with entry order; hit-testing any vertical offset inside
interval `i` returns entry `i` (first matching option, dividers never hit);
and the offset stored for a divider hits nothing. Stated for any entry
list (in particular any non-empty one) under the evident style
non-degeneracy conditions (non-negative row height and divider padding,
positive divider stroke width). -/
theorem menu_row_partition (style : DropDownMenuStyle) (lw : String → String → ℚ)
    (es : List MenuEntryInner)
    (hrow : 0 ≤ style.text_row_height) (hdw : 0 < style.divider_width)
    (hdp : 0 ≤ style.divider_padding) :
    (∀ (i j : ℕ) (lt1 rt1 : String) (s1 e1 : ℚ) (id1 : ℕ) (lt2 rt2 : String)
      (s2 e2 : ℚ) (id2 : ℕ), i < j →
      (style.measure lw es).1[i]? = some (MenuEntryInner.option lt1 rt1 s1 e1 id1) →
      (style.measure lw es).1[j]? = some (MenuEntryInner.option lt2 rt2 s2 e2 id2) →
      e1 ≤ s2) ∧
    (∀ (i : ℕ) (lt rt : String) (s e : ℚ) (id : ℕ) (y : ℚ),
      (style.measure lw es).1[i]? = some (MenuEntryInner.option lt rt s e id) →
      s ≤ y → y < e →
      hit_entry_index (style.measure lw es).1 y = some i) ∧
    (∀ (i : ℕ) (yd : ℚ),
      (style.measure lw es).1[i]? = some (MenuEntryInner.divider yd) →
      hit_entry_index (style.measure lw es).1 yd = none) := by
  cases es with
  | nil =>
      refine ⟨?_, ?_, ?_⟩
      · intro i j lt1 rt1 s1 e1 id1 lt2 rt2 s2 e2 id2 hij h1 h2
        simp [DropDownMenuStyle.measure] at h1
      · intro i lt rt s e id y h hs hy
        simp [DropDownMenuStyle.measure] at h
      · intro i yd h
        simp [DropDownMenuStyle.measure] at h
  | cons hd rest =>
      simp only [DropDownMenuStyle.measure, List.isEmpty_cons, Bool.false_eq_true,
        if_false]
      refine ⟨?_, ?_, ?_⟩
      · intro i j lt1 rt1 s1 e1 id1 lt2 rt2 s2 e2 id2 hij h1 h2
        exact measure_go_ordered _ _ _ lw hrow hdw.le hdp _ _ _ i j
          lt1 rt1 s1 e1 id1 lt2 rt2 s2 e2 id2 hij h1 h2
      · intro i lt rt s e id y h hs hy
        exact measure_go_hit_index _ _ _ lw hrow hdw.le hdp _ _ _ i
          lt rt s e id y h hs hy
      · intro i yd h
        exact measure_go_divider_no_hit _ _ _ lw hrow hdw hdp _ _ _ i yd h

/-- Concrete style fixture realizing the spec scenario's metrics: text row
height 20 (line height 10 plus 5+5 vertical padding on the left column),
divider width 1, divider padding 2, outer padding 4. -/
def menu_test_style : DropDownMenuStyle :=
  ⟨10, 0, 4, ⟨5, 10, 5, 10⟩, ⟨0, 0, 0, 0⟩, 1, 2⟩

/-- The spec scenario's entry list. -/
def menu_test_entries : List MenuEntry :=
  [MenuEntry.option "A" "1" 0, MenuEntry.divider, MenuEntry.option "B" "2" 1]

/-- A concrete stand-in for the external label width measurement. -/
def menu_test_label_width : String → String → ℚ := fun _ _ => 10

theorem menu_test_style_metrics :
    menu_test_style.text_row_height = 20 ∧ menu_test_style.divider_width = 1 ∧
    menu_test_style.divider_padding = 2 ∧ menu_test_style.outer_padding = 4 := by
  refine ⟨?_, rfl, rfl, rfl⟩
  norm_num [menu_test_style, DropDownMenuStyle.text_row_height, max_def]

theorem menu_test_measure_eval :
    (menu_test_style.measure menu_test_label_width
        (menu_test_entries.map menu_entry_inner)).1 =
      [MenuEntryInner.option "A" "1" 4 24 0, MenuEntryInner.divider 26,
       MenuEntryInner.option "B" "2" 29 49 1] := by
  norm_num [DropDownMenuStyle.measure, measure_go, menu_test_entries,
    menu_entry_inner, menu_test_style, DropDownMenuStyle.text_row_height,
    menu_test_label_width, max_def, List.map]

/-- Claim C5 witness: in the measured scenario list, the offset 10 lies
strictly inside entry 0's interval `(4, 24)` and the hit-test scan indeed
returns index 0. -/
theorem menu_row_partition_witness :
    hit_entry_index
      ((menu_test_style.measure menu_test_label_width
        (menu_test_entries.map menu_entry_inner)).1) 10 = some 0 :=
  (menu_row_partition menu_test_style menu_test_label_width
      (menu_test_entries.map menu_entry_inner)
      (by norm_num [menu_test_style, DropDownMenuStyle.text_row_height, max_def])
      (by norm_num [menu_test_style]) (by norm_num [menu_test_style])).2.1
    0 "A" "1" 4 24 0 10
    (by rw [menu_test_measure_eval]; rfl) (by norm_num) (by norm_num)

/-- Claim C2 counterexample: for the scenario style (row height 20, divider
width 1, divider padding 2, outer padding 4) and entries
`[Option("A","1",0), Divider, Option("B","2",1)]`, the code measures entry 1
at offsets `(29, 49)` — not `(34, 54)` — and stores the divider at offset 26
(drawn quad top 26, center 26.5) — not 28. -/
theorem menu_scenario_claim_false :
    menu_test_style.text_row_height = 20 ∧
    menu_test_style.divider_width = 1 ∧
    menu_test_style.divider_padding = 2 ∧
    menu_test_style.outer_padding = 4 ∧
    (menu_test_style.measure menu_test_label_width
        (menu_test_entries.map menu_entry_inner)).1[2]? =
      some (MenuEntryInner.option "B" "2" 29 49 1) ∧
    (menu_test_style.measure menu_test_label_width
        (menu_test_entries.map menu_entry_inner)).1[2]? ≠
      some (MenuEntryInner.option "B" "2" 34 54 1) ∧
    (menu_test_style.measure menu_test_label_width
        (menu_test_entries.map menu_entry_inner)).1[1]? =
      some (MenuEntryInner.divider 26) ∧
    (26 : ℚ) ≠ 28 ∧ (26 : ℚ) + 1 / 2 ≠ 28 := by
  obtain ⟨m1, m2, m3, m4⟩ := menu_test_style_metrics
  refine ⟨m1, m2, m3, m4, ?_, ?_, ?_, by norm_num, by norm_num⟩ <;>
    rw [menu_test_measure_eval] <;> norm_num

/-- Claim C2 (amended): with row height 20, divider width 1, divider
padding 2 and outer padding 4, measuring the scenario entries yields
offsets `(4, 24)` for entry 0, a stored divider offset of 26, and
`(29, 49)` for entry 1; hit-testing `y = 10` selects id 0, `y = 40`
selects id 1, and `y = 27` selects nothing. -/
theorem menu_scenario_amended (style : DropDownMenuStyle) (lw : String → String → ℚ)
    (h1 : style.text_row_height = 20) (h2 : style.divider_width = 1)
    (h3 : style.divider_padding = 2) (h4 : style.outer_padding = 4) :
    (style.measure lw (menu_test_entries.map menu_entry_inner)).1 =
      [MenuEntryInner.option "A" "1" 4 24 0, MenuEntryInner.divider 26,
       MenuEntryInner.option "B" "2" 29 49 1] ∧
    hit_entry_id (style.measure lw (menu_test_entries.map menu_entry_inner)).1 10 =
      some 0 ∧
    hit_entry_id (style.measure lw (menu_test_entries.map menu_entry_inner)).1 40 =
      some 1 ∧
    hit_entry_id (style.measure lw (menu_test_entries.map menu_entry_inner)).1 27 =
      none := by
  have hm : (style.measure lw (menu_test_entries.map menu_entry_inner)).1 =
      [MenuEntryInner.option "A" "1" 4 24 0, MenuEntryInner.divider 26,
       MenuEntryInner.option "B" "2" 29 49 1] := by
    norm_num [DropDownMenuStyle.measure, measure_go, menu_test_entries,
      menu_entry_inner, h1, h2, h3, h4, List.map]
  refine ⟨hm, ?_, ?_, ?_⟩ <;> rw [hm] <;> norm_num [hit_entry_id]

/-- Claim C2 witness: the amended scenario instantiated at the concrete
fixture style, checking the `y = 40` hit. -/
theorem menu_scenario_amended_witness :
    hit_entry_id ((menu_test_style.measure menu_test_label_width
      (menu_test_entries.map menu_entry_inner)).1) 40 = some 1 :=
  (menu_scenario_amended menu_test_style menu_test_label_width
      (by norm_num [menu_test_style, DropDownMenuStyle.text_row_height, max_def])
      rfl rfl rfl).2.2.1

/-- Claim C6: the pending-content buffer is last-write-wins: writing two
entry replacements before a single drain makes the drain apply only the
second one, and the drain leaves no pending replacement and clears the
open-request and style-changed flags. -/
theorem set_entries_last_write_wins (shared : SharedState) (A B : List MenuEntry)
    (elem : DropDownMenuElementM) (rect : Rect) (window_size : Size)
    (lw : String → String → ℚ) (channel_ok : Bool) :
    ∃ shared' elem' eff,
      menu_on_event (DropDownMenu.set_entries (DropDownMenu.set_entries shared A) B)
        elem rect window_size lw channel_ok MenuEvent.customStateChanged =
        Except.ok (shared', elem', eff) ∧
      elem'.entries = (shared.style.measure lw (B.map menu_entry_inner)).1 ∧
      shared'.new_entries = none ∧ shared'.open_requested = false ∧
      shared'.style_changed = false := by
  simp only [menu_on_event, DropDownMenu.set_entries, Option.isSome_some, Bool.true_or,
    if_true]
  split_ifs <;> exact ⟨_, _, _, rfl, rfl, rfl, rfl, rfl⟩

/-- Claim C7: a drain that finds both a pending content replacement and a
pending style-changed flag re-measures, skips the stale per-entry restyle
pass, and clears both the pending replacement and the flag. -/
theorem drain_content_supersedes_style (shared : SharedState) (es : List MenuEntry)
    (elem : DropDownMenuElementM) (rect : Rect) (window_size : Size)
    (lw : String → String → ℚ) (channel_ok : Bool) :
    ∃ shared' elem' eff,
      menu_on_event { shared with new_entries := some es, style_changed := true }
        elem rect window_size lw channel_ok MenuEvent.customStateChanged =
        Except.ok (shared', elem', eff) ∧
      eff.restyled = false ∧ eff.measured = true ∧
      shared'.new_entries = none ∧ shared'.style_changed = false := by
  simp only [menu_on_event, Option.isSome_some, Bool.true_or, if_true]
  split_ifs <;> exact ⟨_, _, _, rfl, rfl, rfl, rfl, rfl⟩

/-- A concrete style part fixture (the default idle-off part). -/
def toggle_test_part : ButtonStylePart :=
  ⟨⟨255, 255, 255, 255⟩, ⟨⟨40, 40, 40, 255⟩, ⟨105, 105, 105, 255⟩, 1, 4⟩⟩

/-- A second concrete style part, differing in background color. -/
def toggle_test_part_accent : ButtonStylePart :=
  ⟨⟨255, 255, 255, 255⟩, ⟨⟨3, 82, 88, 255⟩, ⟨105, 105, 105, 255⟩, 1, 4⟩⟩

/-- A concrete toggle-button style fixture with distinct on/off parts. -/
def toggle_test_style : ToggleButtonStyle :=
  ⟨toggle_test_part_accent, toggle_test_part_accent, toggle_test_part,
   toggle_test_part, toggle_test_part, toggle_test_part⟩

/-- A style whose six parts are all equal: every (state, toggled)
combination resolves to the same part. -/
def uniform_style : ToggleButtonStyle :=
  ⟨toggle_test_part, toggle_test_part, toggle_test_part,
   toggle_test_part, toggle_test_part, toggle_test_part⟩

/-- Claim C3: a single primary press on a toggle button in Idle or Hovered
state transitions it to Down, flips the toggled flag exactly once in the
same step, and hands the action callback exactly one payload — the new
toggled value; the subsequent primary release hands it none. -/
theorem toggle_press_fires_once (elem : ToggleButtonElementM)
    (style : ToggleButtonStyle)
    (hstate : elem.inner.state = ButtonState.idle ∨
      elem.inner.state = ButtonState.hovered)
    (haction : elem.has_action = true) :
    ∃ elem' eff,
      toggle_on_event elem style true
          (ToggleEvent.buttonJustPressed PointerButton.primary) =
        Except.ok (elem', eff) ∧
      elem'.inner.state = ButtonState.down ∧
      elem'.inner.toggled = !elem.inner.toggled ∧
      eff.actions = [!elem.inner.toggled] ∧
      (∀ inside, ∃ elem2 eff2,
        toggle_on_event elem' style true
            (ToggleEvent.buttonJustReleased PointerButton.primary inside) =
          Except.ok (elem2, eff2) ∧ eff2.actions = []) := by
  obtain ⟨⟨st, tg⟩, ha, tt⟩ := elem
  simp only at hstate haction
  subst haction
  rcases hstate with h | h <;> subst h <;> cases tg <;>
    refine ⟨_, _, rfl, rfl, rfl, rfl, ?_⟩ <;>
    intro inside <;> cases inside <;> exact ⟨_, _, rfl, rfl⟩

/-- Claim C3 witness: a concrete idle, untoggled button with an action
closure; the press fires once with payload `true`. -/
theorem toggle_press_fires_once_witness :
    ∃ elem' eff,
      toggle_on_event ⟨⟨ButtonState.idle, false⟩, true, none⟩ toggle_test_style true
          (ToggleEvent.buttonJustPressed PointerButton.primary) =
        Except.ok (elem', eff) ∧
      elem'.inner.state = ButtonState.down ∧
      elem'.inner.toggled = !(false : Bool) ∧
      eff.actions = [!(false : Bool)] ∧
      (∀ inside, ∃ elem2 eff2,
        toggle_on_event elem' toggle_test_style true
            (ToggleEvent.buttonJustReleased PointerButton.primary inside) =
          Except.ok (elem2, eff2) ∧ eff2.actions = []) :=
  toggle_press_fires_once ⟨⟨ButtonState.idle, false⟩, true, none⟩ toggle_test_style
    (Or.inl rfl) rfl

/-- Claim C4 counterexample: under a style whose parts are all equal, a
primary press on an idle untoggled button moves between combinations
`(Idle, off)` and `(Down, on)` that resolve to the same part, yet a repaint
is requested — `set_toggled` reports `needs_repaint` unconditionally on any
actual flip, without comparing resolved parts. -/
theorem toggle_flip_repaints_despite_equal_parts :
    uniform_style.part ButtonState.idle false =
      uniform_style.part ButtonState.down true ∧
    (toggle_on_event ⟨⟨ButtonState.idle, false⟩, false, none⟩ uniform_style true
        (ToggleEvent.buttonJustPressed PointerButton.primary)).map
      (fun p => p.2.repaint) = Except.ok true := by
  refine ⟨rfl, ?_⟩
  simp only [toggle_on_event, ToggleButtonInner.set_state,
    ToggleButtonInner.set_toggled]
  rfl

/-- Claim C4 (amended): a pure interaction-state transition (`set_state`,
toggled unchanged) requests a repaint iff the parts resolved for the state
before and after (at the current toggle flag) differ — in particular two
states resolving to equal parts request none; but a toggled-flag transition
(`set_toggled`) requests a repaint on every actual flip, even between
combinations whose resolved parts are equal. -/
theorem toggle_repaint_rule (inner : ToggleButtonInner) (st : ButtonState)
    (t : Bool) (style : ToggleButtonStyle) :
    ((inner.set_state st style).2.needs_repaint = true ↔
      (inner.state ≠ st ∧
        style.part inner.state inner.toggled ≠ style.part st inner.toggled)) ∧
    ((inner.set_toggled t).2.needs_repaint = true ↔ inner.toggled ≠ t) := by
  constructor
  · unfold ToggleButtonInner.set_state
    split_ifs with h <;> simp [h, ToggleButtonStyle.part]
  · unfold ToggleButtonInner.set_toggled
    split_ifs with h <;> simp [h]

/-- Claim C8: while a toggle button is Disabled no pointer event (move,
leave, press, release, hover timeout) changes the element at all — in
particular neither its interaction state nor its toggled flag; the state
leaves Disabled only through `set_disabled(false)`, which yields Idle, and
`set_disabled(true)` lands every state in Disabled. -/
theorem disabled_state_locked (elem : ToggleButtonElementM)
    (style : ToggleButtonStyle) (channel_ok : Bool) (ev : ToggleEvent)
    (hdis : elem.inner.state = ButtonState.disabled)
    (hp : ev.is_pointer = true) :
    (∃ eff, toggle_on_event elem style channel_ok ev = Except.ok (elem, eff)) ∧
    (ToggleButton.set_disabled elem.inner style false).1.state = ButtonState.idle ∧
    (∀ inner2 : ToggleButtonInner,
      (ToggleButton.set_disabled inner2 style true).1.state = ButtonState.disabled) := by
  refine ⟨?_, ?_, ?_⟩
  · cases ev with
    | moved just_entered =>
        refine ⟨no_toggle_effects, ?_⟩
        simp [toggle_on_event, hdis]
    | pointerLeft =>
        refine ⟨no_toggle_effects, ?_⟩
        simp [toggle_on_event, hdis]
    | buttonJustPressed b =>
        refine ⟨no_toggle_effects, ?_⟩
        simp [toggle_on_event, hdis]
    | buttonJustReleased b inside =>
        refine ⟨no_toggle_effects, ?_⟩
        simp [toggle_on_event, hdis]
    | hoverTimeout => exact ⟨_, rfl⟩
    | customStateChanged => simp [ToggleEvent.is_pointer] at hp
    | otherEvent => simp [ToggleEvent.is_pointer] at hp
  · unfold ToggleButton.set_disabled
    rw [if_neg (by simp), if_pos (by simp [hdis])]
    unfold ToggleButtonInner.set_state
    rw [if_pos (by simp [hdis])]
  · intro inner2
    unfold ToggleButton.set_disabled
    by_cases h : inner2.state = ButtonState.disabled
    · rw [if_neg (by simp [h]), if_neg (by simp)]
      exact h
    · rw [if_pos ⟨rfl, h⟩]
      unfold ToggleButtonInner.set_state
      rw [if_pos h]

/-- Claim C8 witness: a concrete disabled button ignores a primary press and
the `set_disabled` transitions behave as stated. -/
theorem disabled_state_locked_witness :
    (∃ eff, toggle_on_event ⟨⟨ButtonState.disabled, true⟩, true, none⟩
        toggle_test_style true
        (ToggleEvent.buttonJustPressed PointerButton.primary) =
      Except.ok (⟨⟨ButtonState.disabled, true⟩, true, none⟩, eff)) ∧
    (ToggleButton.set_disabled ⟨ButtonState.disabled, true⟩ toggle_test_style
      false).1.state = ButtonState.idle ∧
    (∀ inner2 : ToggleButtonInner,
      (ToggleButton.set_disabled inner2 toggle_test_style true).1.state =
        ButtonState.disabled) :=
  disabled_state_locked ⟨⟨ButtonState.disabled, true⟩, true, none⟩
    toggle_test_style true (ToggleEvent.buttonJustPressed PointerButton.primary)
    rfl rfl

/-- Claim C9: when the action channel rejects the payload of a completing
user action, the dispatch call fails immediately (`Except.error`, the
`.unwrap()` panic in the source) for both the toggle flip and the menu
entry selection; when the channel accepts, exactly one payload is handed
over — nothing is retried or buffered. -/
theorem action_rejection_fatal (elem : ToggleButtonElementM)
    (style : ToggleButtonStyle)
    (hstate : elem.inner.state = ButtonState.idle ∨
      elem.inner.state = ButtonState.hovered)
    (haction : elem.has_action = true)
    (shared : SharedState) (melem : DropDownMenuElementM) (rect : Rect)
    (window_size : Size) (lw : String → String → ℚ) (pos : Point) (id : ℕ)
    (hactive : melem.active = true) (hmaction : melem.has_action = true)
    (hcontains : rect.contains pos)
    (hhit : hit_entry_id melem.entries (pos.y - rect.min_y) = some id) :
    toggle_on_event elem style false
        (ToggleEvent.buttonJustPressed PointerButton.primary) =
      Except.error () ∧
    (∃ elem' eff,
      toggle_on_event elem style true
          (ToggleEvent.buttonJustPressed PointerButton.primary) =
        Except.ok (elem', eff) ∧ eff.actions = [!elem.inner.toggled]) ∧
    menu_on_event shared melem rect window_size lw false
        (MenuEvent.buttonJustPressed PointerButton.primary pos) =
      Except.error () ∧
    (∃ eff,
      menu_on_event shared melem rect window_size lw true
          (MenuEvent.buttonJustPressed PointerButton.primary pos) =
        Except.ok (shared, melem, eff) ∧ eff.actions = [id]) := by
  refine ⟨?_, ?_, ?_, ?_⟩
  · obtain ⟨⟨st, tg⟩, ha, tt⟩ := elem
    simp only at hstate haction
    subst haction
    rcases hstate with h | h <;> subst h <;> cases tg <;> rfl
  · obtain ⟨⟨st, tg⟩, ha, tt⟩ := elem
    simp only at hstate haction
    subst haction
    rcases hstate with h | h <;> subst h <;> cases tg <;> exact ⟨_, _, rfl, rfl⟩
  · simp [menu_on_event, hactive, hmaction, hhit, if_pos, hcontains]
  · refine ⟨⟨false, none, false, true, false, [id], false, false, true⟩, ?_, rfl⟩
    simp [menu_on_event, hactive, hmaction, hhit, hcontains, no_menu_effects]

/-- Claim C9 witness: a concrete hovered toggle button and a concrete open
menu with the pointer over entry id 0; the rejecting channel makes both
dispatches fail, the accepting channel delivers exactly one payload. -/
theorem action_rejection_fatal_witness :
    toggle_on_event ⟨⟨ButtonState.hovered, false⟩, true, none⟩ toggle_test_style
        false (ToggleEvent.buttonJustPressed PointerButton.primary) =
      Except.error () ∧
    (∃ elem' eff,
      toggle_on_event ⟨⟨ButtonState.hovered, false⟩, true, none⟩ toggle_test_style
          true (ToggleEvent.buttonJustPressed PointerButton.primary) =
        Except.ok (elem', eff) ∧ eff.actions = [!(false : Bool)]) ∧
    menu_on_event ⟨menu_test_style, none, false, false⟩
        ⟨[MenuEntryInner.option "A" "1" 4 24 0], ⟨100, 60⟩, true, none, true⟩
        ⟨⟨0, 0⟩, ⟨100, 60⟩⟩ ⟨800, 600⟩ menu_test_label_width false
        (MenuEvent.buttonJustPressed PointerButton.primary ⟨10, 10⟩) =
      Except.error () ∧
    (∃ eff,
      menu_on_event ⟨menu_test_style, none, false, false⟩
          ⟨[MenuEntryInner.option "A" "1" 4 24 0], ⟨100, 60⟩, true, none, true⟩
          ⟨⟨0, 0⟩, ⟨100, 60⟩⟩ ⟨800, 600⟩ menu_test_label_width true
          (MenuEvent.buttonJustPressed PointerButton.primary ⟨10, 10⟩) =
        Except.ok (⟨menu_test_style, none, false, false⟩,
          ⟨[MenuEntryInner.option "A" "1" 4 24 0], ⟨100, 60⟩, true, none, true⟩,
          eff) ∧ eff.actions = [0]) :=
  action_rejection_fatal ⟨⟨ButtonState.hovered, false⟩, true, none⟩
    toggle_test_style (Or.inr rfl) rfl
    ⟨menu_test_style, none, false, false⟩
    ⟨[MenuEntryInner.option "A" "1" 4 24 0], ⟨100, 60⟩, true, none, true⟩
    ⟨⟨0, 0⟩, ⟨100, 60⟩⟩ ⟨800, 600⟩ menu_test_label_width ⟨10, 10⟩ 0
    rfl rfl
    (by norm_num [Rect.contains, Rect.min_x, Rect.min_y, Rect.width, Rect.height])
    (by norm_num [hit_entry_id, Rect.min_y])
